import Mathlib

/-!
# Verification of the dd-grade-2025 decision engine

Shallow embedding of `lib/dd2025.ts`: the diastolic-function / LAP grading
engine (sinus-rhythm and atrial-fibrillation algorithms) together with its
numeric helpers (`safeDiv`, `avg2`) and result packing (`pack`).

JavaScript numbers are modelled as rationals (`ℚ`), nullable fields as
`Option ℚ`.  `Math.round` is modelled by its ECMAScript semantics: the
nearest integer, ties rounded toward positive infinity, i.e. `⌊q + 1/2⌋`.
-/

namespace DD2025

attribute [local semireducible] Rat.add Rat.mul Rat.sub Rat.inv Rat.ofScientific

/-- Input bundle: `DDInputs` from `lib/dd2025.ts`.  Every measurement is
nullable (`Option ℚ`); `isAF` selects the algorithm. -/
structure DDInputs where
  isAF : Bool
  E : Option ℚ
  A : Option ℚ
  eSeptal : Option ℚ
  eLateral : Option ℚ
  trVmax : Option ℚ
  pasp : Option ℚ
  lavi : Option ℚ
  lars : Option ℚ
  pvSD : Option ℚ
  ivrt : Option ℚ
  dt : Option ℚ
  bmi : Option ℚ
  deriving DecidableEq

/-- The severity-tone enumeration `"green" | "blue" | "amber" | "red" | "gray"`. -/
inductive Tone where
  | green
  | blue
  | amber
  | red
  | gray
  deriving DecidableEq

/-- The derived sub-record of `DDResult`. -/
structure Derived where
  EA : Option ℚ
  eAvg : Option ℚ
  EeAvg : Option ℚ
  deriving DecidableEq

/-- Output record: `DDResult` from `lib/dd2025.ts`. -/
structure DDResult where
  gradeLabel : String
  summary : String
  badgeTone : Tone
  derived : Derived
  ruleTrace : List String
  missing : List String
  deriving DecidableEq

/-- ECMAScript Math.round: nearest integer, ties toward positive infinity,
i.e. the floor of `q + 1/2` (via the computable `Rat.floor`). -/
def jsRound (q : ℚ) : ℤ := (q + 1/2).floor

/-- Helper `safeDiv` from `lib/dd2025.ts`: null if either operand is null or
the denominator is zero, otherwise `Math.round((a / b) * 100) / 100`. -/
def safeDiv (a b : Option ℚ) : Option ℚ :=
  match a, b with
  | some a, some b => if b = 0 then none else some ((jsRound (a / b * 100) : ℚ) / 100)
  | _, _ => none

/-- Helper `avg2` from `lib/dd2025.ts`: null if both null, single-value
passthrough if exactly one null, otherwise `Math.round(((a + b) / 2) * 100) / 100`. -/
def avg2 (a b : Option ℚ) : Option ℚ :=
  match a, b with
  | none, none => none
  | none, some b => some b
  | some a, none => some a
  | some a, some b => some ((jsRound ((a + b) / 2 * 100) : ℚ) / 100)

/-- Helper `pack` from `lib/dd2025.ts`: pure aggregation of the result record. -/
def pack (gradeLabel summary : String) (badgeTone : Tone)
    (EA eAvg EeAvg : Option ℚ) (ruleTrace missing : List String) : DDResult :=
  { gradeLabel := gradeLabel
    summary := summary
    badgeTone := badgeTone
    derived := { EA := EA, eAvg := eAvg, EeAvg := EeAvg }
    ruleTrace := ruleTrace
    missing := missing }

/-- Guarded comparison `o != null && o <= c` on a nullable number. -/
def nnLe (o : Option ℚ) (c : ℚ) : Bool :=
  match o with
  | some v => decide (v ≤ c)
  | none => false

/-- Guarded comparison `o != null && o < c` on a nullable number. -/
def nnLt (o : Option ℚ) (c : ℚ) : Bool :=
  match o with
  | some v => decide (v < c)
  | none => false

/-- Guarded comparison `o != null && o >= c` on a nullable number. -/
def nnGe (o : Option ℚ) (c : ℚ) : Bool :=
  match o with
  | some v => decide (c ≤ v)
  | none => false

/-- Guarded comparison `o != null && o > c` on a nullable number. -/
def nnGt (o : Option ℚ) (c : ℚ) : Bool :=
  match o with
  | some v => decide (c < v)
  | none => false

/-! ## Sinus-rhythm algorithm (`computeSinus`), factored into named stages -/

/-- Derived value `EA = safeDiv(x.E, x.A)` in `computeSinus`. -/
def sinus_EA (x : DDInputs) : Option ℚ := safeDiv x.E x.A

/-- Derived value `eAvg = avg2(x.eSeptal, x.eLateral)` in `computeSinus`. -/
def sinus_eAvg (x : DDInputs) : Option ℚ := avg2 x.eSeptal x.eLateral

/-- Derived value `EeAvg = safeDiv(x.E, eAvg)` in `computeSinus`. -/
def sinus_EeAvg (x : DDInputs) : Option ℚ := safeDiv x.E (sinus_eAvg x)

/-- The missing-input advisories of `computeSinus`. -/
def sinusMissing (x : DDInputs) : List String :=
  (if x.E = none then ["Mitral E (cm/s)"] else []) ++
  (if x.A = none then ["Mitral A (cm/s) (needed for E/A)"] else []) ++
  (if x.eSeptal = none ∧ x.eLateral = none then ["Septal and/or lateral e′ (cm/s)"] else [])

/-- Top marker `reducedE`: septal e′ ≤ 6, or lateral e′ ≤ 7, or average e′ ≤ 6.5. -/
def sinusReducedE (x : DDInputs) : Bool :=
  nnLe x.eSeptal 6 || nnLe x.eLateral 7 || nnLe (sinus_eAvg x) 6.5

/-- Top marker `highEe`: E/average-e′ ≥ 14. -/
def sinusHighEe (x : DDInputs) : Bool := nnGe (sinus_EeAvg x) 14

/-- Top marker `highTR`: TR Vmax ≥ 2.8 or PASP ≥ 35. -/
def sinusHighTR (x : DDInputs) : Bool := nnGe x.trVmax 2.8 || nnGe x.pasp 35

/-- Tally `nAbn`: how many of the three top markers are true. -/
def sinusNAbn (x : DDInputs) : ℕ :=
  (sinusReducedE x).toNat + (sinusHighEe x).toNat + (sinusHighTR x).toNat

/-- Condition `reducedE && !highEe && !highTR`: only the reduced-e′ marker is true. -/
def sinusRedOnly (x : DDInputs) : Bool :=
  sinusReducedE x && !sinusHighEe x && !sinusHighTR x

/-- The Grade-1 exit condition: reduced-e′ only, with E/A present and ≤ 0.8. -/
def sinusGrade1Exit (x : DDInputs) : Bool :=
  sinusRedOnly x && nnLe (sinus_EA x) 0.8

/-- Availability `anyConfirmAvailable`: at least one of PV S/D, LARS, LAVI, IVRT present. -/
def sinusAnyConfirm (x : DDInputs) : Bool :=
  x.pvSD.isSome || x.lars.isSome || x.lavi.isSome || x.ivrt.isSome

/-- Boolean `lap`: PV S/D ≤ 0.67, or LARS ≤ 18, or LAVI > 34, or IVRT ≤ 70,
each disjunct only when its input is present. -/
def sinusLap (x : DDInputs) : Bool :=
  nnLe x.pvSD 0.67 || nnLe x.lars 18 || nnGt x.lavi 34 || nnLe x.ivrt 70

/-- The trace after the top-marker tally. -/
def sinusTrace0 (x : DDInputs) : List String :=
  ["Top markers abnormal: " ++ toString (sinusNAbn x) ++ "/3"]

/-- The trace after the reduced-e′-only branch (the branch pushes its line
even when the E/A condition then fails and control falls through). -/
def sinusTrace1 (x : DDInputs) : List String :=
  if sinusRedOnly x then sinusTrace0 x ++ ["Reduced e′ only branch"] else sinusTrace0 x

/-- Stages 5–7 of `computeSinus`: confirmatory availability, LAP
confirmation, and grade assignment under elevated LAP. -/
def sinusConfirm (x : DDInputs) (trace : List String) : DDResult :=
  if sinusAnyConfirm x = false then
    pack "Indeterminate"
      "Need ≥1 confirmatory variable (PV S/D, LARS, LAVI, or IVRT) to confirm LAP"
      Tone.amber (sinus_EA x) (sinus_eAvg x) (sinus_EeAvg x)
      (trace ++ ["No confirmatory variables available"]) (sinusMissing x)
  else if sinusLap x = false then
    pack "Indeterminate"
      "Abnormal markers present but LAP not confirmed by PV S/D, LARS, LAVI, or IVRT"
      Tone.amber (sinus_EA x) (sinus_eAvg x) (sinus_EeAvg x)
      (trace ++ ["LAP not elevated"]) (sinusMissing x)
  else
    match sinus_EA x with
    | none =>
        pack "Increased LAP (grade unknown)"
          "Elevated LAP but E/A missing → cannot assign Grade 2 vs 3"
          Tone.red none (sinus_eAvg x) (sinus_EeAvg x)
          (trace ++ ["LAP elevated"]) (sinusMissing x)
    | some ea =>
        if 2 ≤ ea then
          pack "Grade 3" "Elevated LAP with E/A ≥ 2"
            Tone.red (some ea) (sinus_eAvg x) (sinus_EeAvg x)
            (trace ++ ["LAP elevated"]) (sinusMissing x)
        else
          pack "Grade 2" "Elevated LAP with E/A < 2"
            Tone.red (some ea) (sinus_eAvg x) (sinus_EeAvg x)
            (trace ++ ["LAP elevated"]) (sinusMissing x)

/-- Algorithm 1 (sinus rhythm): `computeSinus` from `lib/dd2025.ts`. -/
def computeSinus (x : DDInputs) : DDResult :=
  if sinusNAbn x = 0 then
    pack "Normal DF" "All diastolic markers normal → Normal LAP"
      Tone.green (sinus_EA x) (sinus_eAvg x) (sinus_EeAvg x)
      (sinusTrace0 x) (sinusMissing x)
  else if sinusGrade1Exit x then
    pack "Grade 1" "Reduced e′ only with E/A ≤ 0.8"
      Tone.blue (sinus_EA x) (sinus_eAvg x) (sinus_EeAvg x)
      (sinusTrace1 x) (sinusMissing x)
  else
    sinusConfirm x (sinusTrace1 x)

/-! ## Atrial-fibrillation algorithm (`computeAF`), factored into named stages -/

/-- Derived value `eAvg = avg2(x.eSeptal, x.eLateral)` in `computeAF`. -/
def af_eAvg (x : DDInputs) : Option ℚ := avg2 x.eSeptal x.eLateral

/-- Derived value `EeAvg = safeDiv(x.E, eAvg)` in `computeAF`. -/
def af_EeAvg (x : DDInputs) : Option ℚ := safeDiv x.E (af_eAvg x)

/-- The missing-input advisories of `computeAF`. -/
def afMissing (x : DDInputs) : List String :=
  (if x.E = none then ["Mitral E (cm/s)"] else []) ++
  (if x.eSeptal = none then ["Septal e′ (cm/s) (for septal E/e′)"] else []) ++
  (if x.trVmax = none ∧ x.pasp = none then ["TR Vmax (m/s) or PASP (mmHg)"] else []) ++
  (if x.dt = none then ["DT (ms)"] else [])

/-- AF primary criterion 1: `E ≥ 100`. -/
def afC1 (x : DDInputs) : Bool := nnGe x.E 100

/-- AF primary criterion 2: septal E/e′ > 11, computed directly as
`E / eSeptal`, guarded against an absent or zero denominator. -/
def afC2 (x : DDInputs) : Bool :=
  match x.E, x.eSeptal with
  | some e, some es => decide (es ≠ 0) && decide (11 < e / es)
  | _, _ => false

/-- AF primary criterion 3: `TR Vmax > 2.8` or `PASP > 35` (strict). -/
def afC3 (x : DDInputs) : Bool := nnGt x.trVmax 2.8 || nnGt x.pasp 35

/-- AF primary criterion 4: `DT ≤ 160`. -/
def afC4 (x : DDInputs) : Bool := nnLe x.dt 160

/-- Tally `count`: the AF primary-criteria tally, 0–4. -/
def afCount (x : DDInputs) : ℕ :=
  (afC1 x).toNat + (afC2 x).toNat + (afC3 x).toNat + (afC4 x).toNat

/-- Tally `sec`: positive secondary criteria (LARS < 18, PV S/D < 1, BMI > 30). -/
def afSec (x : DDInputs) : ℕ :=
  (nnLt x.lars 18).toNat + (nnLt x.pvSD 1).toNat + (nnGt x.bmi 30).toNat

/-- Tally `secAvail`: how many secondary-criterion inputs are present. -/
def afSecAvail (x : DDInputs) : ℕ :=
  x.lars.isSome.toNat + x.pvSD.isSome.toNat + x.bmi.isSome.toNat

/-- The AF trace after the primary tally. -/
def afTrace0 (x : DDInputs) : List String :=
  ["AF criteria positive: " ++ toString (afCount x) ++ "/4"]

/-- The AF trace after the secondary tally. -/
def afTrace1 (x : DDInputs) : List String :=
  afTrace0 x ++
    ["Secondary criteria positive: " ++ toString (afSec x) ++ "/" ++ toString (afSecAvail x)]

/-- Algorithm 2 (atrial fibrillation): `computeAF` from `lib/dd2025.ts`. -/
def computeAF (x : DDInputs) : DDResult :=
  if afCount x ≤ 1 then
    pack "Normal LAP" "0–1 AF criteria positive"
      Tone.green none (af_eAvg x) (af_EeAvg x) (afTrace0 x) (afMissing x)
  else if 3 ≤ afCount x then
    pack "Elevated LAP" "≥3 AF criteria positive"
      Tone.red none (af_eAvg x) (af_EeAvg x) (afTrace0 x) (afMissing x)
  else if afSecAvail x = 0 then
    pack "Indeterminate"
      "2 AF criteria positive, but no secondary criteria available (LARS, PV S/D, BMI)"
      Tone.amber none (af_eAvg x) (af_EeAvg x) (afTrace1 x) (afMissing x)
  else if 2 ≤ afSec x then
    pack "Elevated LAP" "2 AF criteria + ≥2 secondary criteria positive"
      Tone.red none (af_eAvg x) (af_EeAvg x) (afTrace1 x) (afMissing x)
  else if afSec x = 0 then
    pack "Normal LAP" "2 AF criteria + no secondary criteria positive"
      Tone.green none (af_eAvg x) (af_EeAvg x) (afTrace1 x) (afMissing x)
  else
    pack "Indeterminate"
      "2 AF criteria + only 1 secondary criterion positive (or unreliable)"
      Tone.amber none (af_eAvg x) (af_EeAvg x) (afTrace1 x) (afMissing x)

/-- Entry point `computeDD2025`: dispatch on the rhythm-mode flag. -/
def computeDD2025 (x : DDInputs) : DDResult :=
  if x.isAF then computeAF x else computeSinus x

/-! ## Definitions written from the spec's words, for comparison -/

/-- Rounding to the nearest integer with ties going away from zero, as the
spec words the rounding rule of guarded division and averaging.  Written
from the spec, to be compared with the code's `jsRound`. -/
def roundAwayZero (q : ℚ) : ℤ :=
  if 0 ≤ q then (q + 1/2).floor else -((-q + 1/2).floor)

/-- Rounding at the 2nd decimal as the spec words it: multiply by 100, round
to the nearest integer with ties away from zero, divide by 100.  Written
from the spec, to be compared with the code's helpers. -/
def specRound2 (q : ℚ) : ℚ := (roundAwayZero (q * 100) : ℚ) / 100

/-- A nullable value that is null or has exactly 2 decimal places
(its value times 100 is an integer, i.e. has denominator 1). -/
def opt2dp (o : Option ℚ) : Prop := ∀ q : ℚ, o = some q → (q * 100).den = 1

/-! ## Concrete bundles used by the witnesses and counterexamples -/

/-- The all-absent bundle, used to build concrete test bundles. -/
def emptyBundle : DDInputs :=
  { isAF := false, E := none, A := none, eSeptal := none, eLateral := none,
    trVmax := none, pasp := none, lavi := none, lars := none, pvSD := none,
    ivrt := none, dt := none, bmi := none }

/-- Sinus bundle reaching the elevated-LAP stage with E/A exactly 2.00:
E=100, A=50, septal e′=5, LAVI=40. -/
def bundleC1 : DDInputs :=
  { emptyBundle with
      E := some 100
      A := some 50
      eSeptal := some 5
      lavi := some 40 }

/-- AF bundle with all four primary criteria positive: E=110, septal e′=8,
TR Vmax=3.0, DT=140. -/
def bundleC2 : DDInputs :=
  { emptyBundle with
      isAF := true
      E := some 110
      eSeptal := some 8
      trVmax := some 3
      dt := some 140 }

/-- Sinus bundle with only the reduced-e′ marker true and E/A = 0.6:
E=60, A=100, septal e′=5. -/
def bundleC3 : DDInputs :=
  { emptyBundle with
      E := some 60
      A := some 100
      eSeptal := some 5 }

/-- Sinus bundle with abnormal top markers and no confirmatory variable:
E=90, septal e′=5. -/
def bundleC4 : DDInputs :=
  { emptyBundle with
      E := some 90
      eSeptal := some 5 }

/-- Sinus bundle whose average e′ is an unrounded single-value passthrough:
septal e′ = 0.125, lateral e′ absent. -/
def bundleC7 : DDInputs :=
  { emptyBundle with eSeptal := some 0.125 }

/-- Sinus bundle with E=1, A=3, whose E/A rounds to 0.33. -/
def bundleC7w : DDInputs :=
  { emptyBundle with E := some 1, A := some 3 }

/-- The all-absent bundle in AF mode. -/
def bundleAFEmpty : DDInputs := { emptyBundle with isAF := true }

/-- The worked sinus example of the spec: E=80, A=60, septal e′=7,
lateral e′=10, TR Vmax=2.6, everything else absent. -/
def specSinusExample : DDInputs :=
  { emptyBundle with
      E := some 80
      A := some 60
      eSeptal := some 7
      eLateral := some 10
      trVmax := some 2.6 }

example : jsRound (37.5 : ℚ) = 38 := by decide
example : jsRound (-37.5 : ℚ) = -37 := by decide
example : safeDiv (some 80) (some 60) = some 1.33 := by decide
example : avg2 (some 7) (some 10) = some 8.5 := by decide
example : (computeSinus specSinusExample).gradeLabel = "Normal DF" := by decide
example : (computeSinus specSinusExample).derived.EA = some 1.33 := by decide

/-! ## Helper lemmas -/

lemma nnLe_iff {o : Option ℚ} {c : ℚ} : nnLe o c = true ↔ ∃ v, o = some v ∧ v ≤ c := by
  cases o <;> simp [nnLe]

lemma nnLt_iff {o : Option ℚ} {c : ℚ} : nnLt o c = true ↔ ∃ v, o = some v ∧ v < c := by
  cases o <;> simp [nnLt]

lemma nnGe_iff {o : Option ℚ} {c : ℚ} : nnGe o c = true ↔ ∃ v, o = some v ∧ c ≤ v := by
  cases o <;> simp [nnGe]

lemma nnGt_iff {o : Option ℚ} {c : ℚ} : nnGt o c = true ↔ ∃ v, o = some v ∧ c < v := by
  cases o <;> simp [nnGt]

lemma sinusLap_iff (x : DDInputs) :
    sinusLap x = true ↔
      ((∃ v, x.pvSD = some v ∧ v ≤ 0.67) ∨ (∃ v, x.lars = some v ∧ v ≤ 18) ∨
       (∃ v, x.lavi = some v ∧ 34 < v) ∨ (∃ v, x.ivrt = some v ∧ v ≤ 70)) := by
  simp [sinusLap, Bool.or_eq_true, nnLe_iff, nnGt_iff, or_assoc]

lemma computeSinus_confirm (x : DDInputs) (h1 : sinusNAbn x ≠ 0)
    (h2 : sinusGrade1Exit x = false) :
    computeSinus x = sinusConfirm x (sinusTrace1 x) := by
  unfold computeSinus
  rw [if_neg h1, if_neg (by simp [h2])]

lemma sinusConfirm_trace (x : DDInputs) (t : List String) (h : sinusAnyConfirm x = true) :
    (sinusConfirm x t).ruleTrace =
      t ++ [if sinusLap x then "LAP elevated" else "LAP not elevated"] := by
  unfold sinusConfirm
  rw [if_neg (by simp [h])]
  by_cases hl : sinusLap x = true
  · rw [if_neg (by simp [hl])]
    cases hEA : sinus_EA x with
    | none => simp [pack, hl]
    | some ea =>
        by_cases h2 : 2 ≤ ea
        · simp [pack, hl, h2]
        · simp [pack, hl, h2]
  · have hl' : sinusLap x = false := by simpa using hl
    rw [if_pos hl']
    simp [pack, hl']

/-! ## Claims about the sinus-rhythm algorithm -/

/-- C5: in sinus mode, when all three top markers (reduced e′, high
E/average-e′, high right-heart pressure) are false, the result is grade
"Normal DF" with tone green, regardless of the confirmatory inputs. -/
theorem C5_all_markers_false_normal (x : DDInputs) (hm : x.isAF = false)
    (hr : sinusReducedE x = false) (hh : sinusHighEe x = false)
    (ht : sinusHighTR x = false) :
    (computeDD2025 x).gradeLabel = "Normal DF" ∧
      (computeDD2025 x).badgeTone = Tone.green := by
  have h0 : sinusNAbn x = 0 := by simp [sinusNAbn, hr, hh, ht]
  unfold computeDD2025 computeSinus
  rw [if_neg (by simp [hm]), if_pos h0]
  exact ⟨rfl, rfl⟩

/-- Witness for C5 at the all-absent sinus bundle. -/
theorem C5_witness :
    (computeDD2025 emptyBundle).gradeLabel = "Normal DF" ∧
      (computeDD2025 emptyBundle).badgeTone = Tone.green :=
  C5_all_markers_false_normal emptyBundle (by decide) (by decide) (by decide) (by decide)

/-- C1: in sinus mode, for every bundle reaching the elevated-LAP grading
stage (some top marker true, not the Grade-1 exit, a confirmatory variable
present, LAP-elevated true): E/A absent gives "Increased LAP (grade
unknown)" tone red; E/A ≥ 2 gives "Grade 3" tone red; E/A < 2 gives
"Grade 2" tone red. -/
theorem C1_elevated_lap_grading (x : DDInputs) (hm : x.isAF = false)
    (h1 : sinusNAbn x ≠ 0) (h2 : sinusGrade1Exit x = false)
    (h3 : sinusAnyConfirm x = true) (h4 : sinusLap x = true) :
    (sinus_EA x = none →
        (computeDD2025 x).gradeLabel = "Increased LAP (grade unknown)" ∧
          (computeDD2025 x).badgeTone = Tone.red) ∧
    (∀ ea : ℚ, sinus_EA x = some ea → 2 ≤ ea →
        (computeDD2025 x).gradeLabel = "Grade 3" ∧
          (computeDD2025 x).badgeTone = Tone.red) ∧
    (∀ ea : ℚ, sinus_EA x = some ea → ea < 2 →
        (computeDD2025 x).gradeLabel = "Grade 2" ∧
          (computeDD2025 x).badgeTone = Tone.red) := by
  have hd : computeDD2025 x = sinusConfirm x (sinusTrace1 x) := by
    unfold computeDD2025
    rw [if_neg (by simp [hm])]
    exact computeSinus_confirm x h1 h2
  rw [hd]
  unfold sinusConfirm
  rw [if_neg (by simp [h3]), if_neg (by simp [h4])]
  refine ⟨?_, ?_, ?_⟩
  · intro hEA
    rw [hEA]
    exact ⟨rfl, rfl⟩
  · intro ea hEA hge
    rw [hEA]
    simp [pack, hge]
  · intro ea hEA hlt
    rw [hEA]
    simp [pack, not_le.mpr hlt]

/-- Witness for C1 at a bundle with E/A exactly 2.00 and LAVI-confirmed
LAP: the ≥ boundary is inclusive, giving "Grade 3". -/
theorem C1_witness :
    (computeDD2025 bundleC1).gradeLabel = "Grade 3" ∧
      (computeDD2025 bundleC1).badgeTone = Tone.red :=
  (C1_elevated_lap_grading bundleC1 (by decide) (by decide) (by decide)
      (by decide) (by decide)).2.1 2 (by decide) (by decide)

/-- C3: in sinus mode with only the reduced-e′ marker true: if E/A is
present and ≤ 0.8 the result is "Grade 1" tone blue; if E/A is absent or
greater than 0.8 the engine falls through to the confirmatory stage. -/
theorem C3_reduced_e_only (x : DDInputs) (hm : x.isAF = false)
    (hr : sinusReducedE x = true) (hh : sinusHighEe x = false)
    (ht : sinusHighTR x = false) :
    (∀ ea : ℚ, sinus_EA x = some ea → ea ≤ 0.8 →
        (computeDD2025 x).gradeLabel = "Grade 1" ∧
          (computeDD2025 x).badgeTone = Tone.blue) ∧
    ((sinus_EA x = none ∨ ∃ ea : ℚ, sinus_EA x = some ea ∧ 0.8 < ea) →
        computeDD2025 x = sinusConfirm x (sinusTrace1 x)) := by
  have hro : sinusRedOnly x = true := by simp [sinusRedOnly, hr, hh, ht]
  have h1 : sinusNAbn x ≠ 0 := by simp [sinusNAbn, hr]
  constructor
  · intro ea hEA hle
    have hg : sinusGrade1Exit x = true := by
      simp [sinusGrade1Exit, hro, nnLe, hEA, hle]
    unfold computeDD2025 computeSinus
    rw [if_neg (by simp [hm]), if_neg h1, if_pos (by simp [hg])]
    exact ⟨rfl, rfl⟩
  · intro hfall
    have hg : sinusGrade1Exit x = false := by
      rcases hfall with hnone | ⟨ea, hEA, hgt⟩
      · simp [sinusGrade1Exit, nnLe, hnone]
      · simp [sinusGrade1Exit, nnLe, hEA, not_le.mpr hgt]
    unfold computeDD2025
    rw [if_neg (by simp [hm])]
    exact computeSinus_confirm x h1 hg

/-- Witness for C3 at a bundle with septal e′ = 5 and E/A = 0.6. -/
theorem C3_witness :
    (computeDD2025 bundleC3).gradeLabel = "Grade 1" ∧
      (computeDD2025 bundleC3).badgeTone = Tone.blue :=
  (C3_reduced_e_only bundleC3 (by decide) (by decide) (by decide) (by decide)).1
    0.6 (by decide) (by decide)

/-- C4: in sinus mode with abnormal top markers and no Grade-1 exit: if no
confirmatory variable is present the result is "Indeterminate" tone amber;
otherwise the LAP-elevated boolean is the stated disjunction over present
inputs, its outcome is recorded to the trace, and when false the result is
"Indeterminate" tone amber. -/
theorem C4_confirmatory_stage (x : DDInputs) (hm : x.isAF = false)
    (h1 : sinusNAbn x ≠ 0) (h2 : sinusGrade1Exit x = false) :
    (sinusAnyConfirm x = false →
        (computeDD2025 x).gradeLabel = "Indeterminate" ∧
          (computeDD2025 x).badgeTone = Tone.amber) ∧
    (sinusAnyConfirm x = true →
        (sinusLap x = true ↔
          ((∃ v, x.pvSD = some v ∧ v ≤ 0.67) ∨ (∃ v, x.lars = some v ∧ v ≤ 18) ∨
           (∃ v, x.lavi = some v ∧ 34 < v) ∨ (∃ v, x.ivrt = some v ∧ v ≤ 70))) ∧
        ((if sinusLap x then "LAP elevated" else "LAP not elevated") ∈
            (computeDD2025 x).ruleTrace) ∧
        (sinusLap x = false →
          (computeDD2025 x).gradeLabel = "Indeterminate" ∧
            (computeDD2025 x).badgeTone = Tone.amber)) := by
  have hd : computeDD2025 x = sinusConfirm x (sinusTrace1 x) := by
    unfold computeDD2025
    rw [if_neg (by simp [hm])]
    exact computeSinus_confirm x h1 h2
  rw [hd]
  constructor
  · intro h3
    unfold sinusConfirm
    rw [if_pos (by simp [h3])]
    exact ⟨rfl, rfl⟩
  · intro h3
    refine ⟨sinusLap_iff x, ?_, ?_⟩
    · rw [sinusConfirm_trace x _ h3]
      exact List.mem_append_right _ (List.mem_singleton_self _)
    · intro h4
      unfold sinusConfirm
      rw [if_neg (by simp [h3]), if_pos h4]
      exact ⟨rfl, rfl⟩

/-- Witness for C4 at a bundle with abnormal markers and no confirmatory
variable. -/
theorem C4_witness :
    (computeDD2025 bundleC4).gradeLabel = "Indeterminate" ∧
      (computeDD2025 bundleC4).badgeTone = Tone.amber :=
  ((C4_confirmatory_stage bundleC4 (by decide) (by decide) (by decide)).1) (by decide)

/-! ## Claims about the atrial-fibrillation algorithm -/

lemma nnLt_toNat_le_isSome (o : Option ℚ) (c : ℚ) : (nnLt o c).toNat ≤ o.isSome.toNat := by
  cases o <;> simp [nnLt, Bool.toNat_le]

lemma nnGt_toNat_le_isSome (o : Option ℚ) (c : ℚ) : (nnGt o c).toNat ≤ o.isSome.toNat := by
  cases o <;> simp [nnGt, Bool.toNat_le]

lemma afSec_le_avail (x : DDInputs) : afSec x ≤ afSecAvail x := by
  unfold afSec afSecAvail
  exact Nat.add_le_add
    (Nat.add_le_add (nnLt_toNat_le_isSome _ _) (nnLt_toNat_le_isSome _ _))
    (nnGt_toNat_le_isSome _ _)

lemma computeDD2025_af (x : DDInputs) (hm : x.isAF = true) :
    computeDD2025 x = computeAF x := by
  unfold computeDD2025
  rw [if_pos (by simp [hm])]

/-- C2: in AF mode the engine tallies the four primary criteria (each only
when its inputs are present: E ≥ 100; septal E/e′ computed directly as E
divided by septal e′, guarded, > 11; TR Vmax > 2.8 or PASP > 35, strict;
DT ≤ 160); count ≤ 1 gives "Normal LAP" green; count ≥ 3 gives "Elevated
LAP" red; count = 2 triggers the secondary tie-break (LARS < 18, PV S/D
< 1, BMI > 30 over present inputs): no secondary available gives
"Indeterminate" amber, ≥ 2 positive gives "Elevated LAP" red, 0 positive
gives "Normal LAP" green, exactly 1 positive gives "Indeterminate" amber. -/
theorem C2_af_algorithm (x : DDInputs) (hm : x.isAF = true) :
    (afC1 x = true ↔ ∃ v, x.E = some v ∧ 100 ≤ v) ∧
    (afC2 x = true ↔ ∃ e es, x.E = some e ∧ x.eSeptal = some es ∧ es ≠ 0 ∧ 11 < e / es) ∧
    (afC3 x = true ↔
      ((∃ v, x.trVmax = some v ∧ 2.8 < v) ∨ (∃ v, x.pasp = some v ∧ 35 < v))) ∧
    (afC4 x = true ↔ ∃ v, x.dt = some v ∧ v ≤ 160) ∧
    (afCount x ≤ 1 →
        (computeDD2025 x).gradeLabel = "Normal LAP" ∧
          (computeDD2025 x).badgeTone = Tone.green) ∧
    (3 ≤ afCount x →
        (computeDD2025 x).gradeLabel = "Elevated LAP" ∧
          (computeDD2025 x).badgeTone = Tone.red) ∧
    (afCount x = 2 →
        (afSecAvail x = 0 →
            (computeDD2025 x).gradeLabel = "Indeterminate" ∧
              (computeDD2025 x).badgeTone = Tone.amber) ∧
        (2 ≤ afSec x →
            (computeDD2025 x).gradeLabel = "Elevated LAP" ∧
              (computeDD2025 x).badgeTone = Tone.red) ∧
        (afSecAvail x ≠ 0 ∧ afSec x = 0 →
            (computeDD2025 x).gradeLabel = "Normal LAP" ∧
              (computeDD2025 x).badgeTone = Tone.green) ∧
        (afSec x = 1 →
            (computeDD2025 x).gradeLabel = "Indeterminate" ∧
              (computeDD2025 x).badgeTone = Tone.amber)) := by
  rw [computeDD2025_af x hm]
  refine ⟨?_, ?_, ?_, ?_, ?_, ?_, ?_⟩
  · simp [afC1, nnGe_iff]
  · cases hE : x.E <;> cases hS : x.eSeptal <;> simp [afC2, hE, hS, and_assoc]
  · simp [afC3, Bool.or_eq_true, nnGt_iff]
  · simp [afC4, nnLe_iff]
  · intro h
    unfold computeAF
    rw [if_pos h]
    exact ⟨rfl, rfl⟩
  · intro h
    unfold computeAF
    rw [if_neg (by omega), if_pos h]
    exact ⟨rfl, rfl⟩
  · intro h
    refine ⟨?_, ?_, ?_, ?_⟩
    · intro h0
      unfold computeAF
      rw [if_neg (by omega), if_neg (by omega), if_pos h0]
      exact ⟨rfl, rfl⟩
    · intro hs
      have hv : afSecAvail x ≠ 0 := by
        have := afSec_le_avail x
        omega
      unfold computeAF
      rw [if_neg (by omega), if_neg (by omega), if_neg hv, if_pos hs]
      exact ⟨rfl, rfl⟩
    · rintro ⟨hv, hs⟩
      unfold computeAF
      rw [if_neg (by omega), if_neg (by omega), if_neg hv, if_neg (by omega), if_pos hs]
      exact ⟨rfl, rfl⟩
    · intro hs
      have hv : afSecAvail x ≠ 0 := by
        have := afSec_le_avail x
        omega
      unfold computeAF
      rw [if_neg (by omega), if_neg (by omega), if_neg hv, if_neg (by omega),
        if_neg (by omega)]
      exact ⟨rfl, rfl⟩

/-- Witness for C2 at an AF bundle with all four primary criteria positive. -/
theorem C2_witness :
    (computeDD2025 bundleC2).gradeLabel = "Elevated LAP" ∧
      (computeDD2025 bundleC2).badgeTone = Tone.red :=
  (C2_af_algorithm bundleC2 (by decide)).2.2.2.2.2.1 (by decide)

/-- C8: in AF mode the derived E/A field of the result is always null. -/
theorem C8_af_EA_null (x : DDInputs) (hm : x.isAF = true) :
    (computeDD2025 x).derived.EA = none := by
  rw [computeDD2025_af x hm]
  unfold computeAF
  repeat' split
  all_goals rfl

/-- Witness for C8 at the all-absent AF bundle. -/
theorem C8_witness : (computeDD2025 bundleAFEmpty).derived.EA = none :=
  C8_af_EA_null bundleAFEmpty (by decide)

/-! ## Claims about the numeric helpers -/

/-- Counterexample to C6 as stated: at present operands −3 and 8 the code's
guarded division rounds −0.375 to −0.37 (ties toward positive infinity),
while rounding half-away-from-zero at the 2nd decimal gives −0.38. -/
theorem C6_counterexample :
    safeDiv (some (-3 : ℚ)) (some 8) = some (-0.37) ∧
      specRound2 ((-3 : ℚ) / 8) = -0.38 ∧ ((-0.37 : ℚ) ≠ -0.38) := by
  refine ⟨by decide, by decide, by decide⟩

/-- C6 (amended): guarded division (non-zero denominator) and the two-value
average (both present) round at the 2nd decimal with ties toward positive
infinity (ECMAScript Math.round); this agrees with the spec's
half-away-from-zero rule whenever the quotient (resp. the mean) is
nonnegative. -/
theorem C6_amended_rounding (a b : ℚ) (hb : b ≠ 0) :
    (0 ≤ a / b → safeDiv (some a) (some b) = some (specRound2 (a / b))) ∧
    (0 ≤ (a + b) / 2 → avg2 (some a) (some b) = some (specRound2 ((a + b) / 2))) := by
  constructor
  · intro h
    simp only [safeDiv, specRound2, roundAwayZero, jsRound]
    rw [if_neg hb, if_pos (mul_nonneg h (by norm_num))]
  · intro h
    simp only [avg2, specRound2, roundAwayZero, jsRound]
    rw [if_pos (mul_nonneg h (by norm_num))]

/-- Witness for the amended C6 at operands 1 and 3. -/
theorem C6_witness :
    safeDiv (some (1 : ℚ)) (some 3) = some (specRound2 ((1 : ℚ) / 3)) ∧
      avg2 (some (1 : ℚ)) (some 3) = some (specRound2 (((1 : ℚ) + 3) / 2)) :=
  ⟨(C6_amended_rounding 1 3 (by decide)).1 (by decide),
   (C6_amended_rounding 1 3 (by decide)).2 (by decide)⟩

lemma jsRound_div100_2dp (r : ℚ) : ((jsRound r : ℚ) / 100 * 100).den = 1 := by
  have h : ((jsRound r : ℚ) / 100) * 100 = (jsRound r : ℚ) :=
    div_mul_cancel₀ _ (by norm_num)
  rw [h]
  exact Rat.den_intCast _

lemma safeDiv_2dp (a b : Option ℚ) : opt2dp (safeDiv a b) := by
  intro q hq
  rcases a with _ | a <;> rcases b with _ | b <;> simp [safeDiv] at hq
  rcases hq with ⟨hb, hv⟩
  rw [← hv]
  exact jsRound_div100_2dp _

lemma avg2_cases (a b : Option ℚ) :
    avg2 a b = none ∨ avg2 a b = a ∨ avg2 a b = b ∨ opt2dp (avg2 a b) := by
  rcases a with _ | a <;> rcases b with _ | b
  · exact Or.inl rfl
  · exact Or.inr (Or.inr (Or.inl rfl))
  · exact Or.inr (Or.inl rfl)
  · refine Or.inr (Or.inr (Or.inr ?_))
    intro q hq
    simp [avg2] at hq
    rw [← hq]
    exact jsRound_div100_2dp _

lemma computeSinus_derived (x : DDInputs) :
    (computeSinus x).derived = ⟨sinus_EA x, sinus_eAvg x, sinus_EeAvg x⟩ := by
  unfold computeSinus sinusConfirm
  repeat' split
  all_goals simp_all [pack]

lemma computeAF_derived (x : DDInputs) :
    (computeAF x).derived = ⟨none, af_eAvg x, af_EeAvg x⟩ := by
  unfold computeAF
  repeat' split
  all_goals rfl

/-- Counterexample to C7 as stated: with septal e′ = 0.125 present and
lateral e′ absent, the derived average e′ is the unrounded passthrough
0.125, which does not have exactly 2 decimal places. -/
theorem C7_counterexample :
    (computeDD2025 bundleC7).derived.eAvg = some 0.125 ∧
      ((0.125 : ℚ) * 100).den ≠ 1 := by
  refine ⟨by decide, by decide⟩

/-- C7 (amended): in either mode the guarded-division results (E/A and
E/average-e′) in the result are null or rounded to exactly 2 decimal
places; the derived average e′ is null, or the unrounded single present
input, or (when both e′ inputs are present) rounded to 2 decimal places. -/
theorem C7_amended_derived_2dp (x : DDInputs) :
    opt2dp ((computeDD2025 x).derived.EA) ∧
    opt2dp ((computeDD2025 x).derived.EeAvg) ∧
    ((computeDD2025 x).derived.eAvg = none ∨
     (computeDD2025 x).derived.eAvg = x.eSeptal ∨
     (computeDD2025 x).derived.eAvg = x.eLateral ∨
     opt2dp ((computeDD2025 x).derived.eAvg)) := by
  cases hm : x.isAF
  · have hd : computeDD2025 x = computeSinus x := by
      unfold computeDD2025
      rw [if_neg (by simp [hm])]
    rw [hd, computeSinus_derived x]
    exact ⟨safeDiv_2dp _ _, safeDiv_2dp _ _, avg2_cases _ _⟩
  · rw [computeDD2025_af x hm, computeAF_derived x]
    refine ⟨?_, safeDiv_2dp _ _, avg2_cases _ _⟩
    intro q hq
    simp at hq

/-- Witness for the amended C7: at the bundle E=1, A=3 the derived E/A is
0.33, which has exactly 2 decimal places. -/
theorem C7_witness : ((0.33 : ℚ) * 100).den = 1 :=
  (C7_amended_derived_2dp bundleC7w).1 0.33 (by decide)

/-! ## Claims about the missing-input list and the tones -/

lemma computeSinus_missing (x : DDInputs) : (computeSinus x).missing = sinusMissing x := by
  unfold computeSinus sinusConfirm
  repeat' split
  all_goals rfl

lemma computeAF_missing (x : DDInputs) : (computeAF x).missing = afMissing x := by
  unfold computeAF
  repeat' split
  all_goals rfl

/-- C9: in either mode the missing-input list contains an advisory exactly
when the mode's missingness pre-check fires for it (so never for a present
field, always for the absent fields the mode checks), and contains nothing
else. -/
theorem C9_missing_list (x : DDInputs) :
    (x.isAF = false →
        (("Mitral E (cm/s)" ∈ (computeDD2025 x).missing) ↔ x.E = none) ∧
        (("Mitral A (cm/s) (needed for E/A)" ∈ (computeDD2025 x).missing) ↔ x.A = none) ∧
        (("Septal and/or lateral e′ (cm/s)" ∈ (computeDD2025 x).missing) ↔
          (x.eSeptal = none ∧ x.eLateral = none)) ∧
        (∀ s ∈ (computeDD2025 x).missing,
          s = "Mitral E (cm/s)" ∨ s = "Mitral A (cm/s) (needed for E/A)" ∨
            s = "Septal and/or lateral e′ (cm/s)")) ∧
    (x.isAF = true →
        (("Mitral E (cm/s)" ∈ (computeDD2025 x).missing) ↔ x.E = none) ∧
        (("Septal e′ (cm/s) (for septal E/e′)" ∈ (computeDD2025 x).missing) ↔
          x.eSeptal = none) ∧
        (("TR Vmax (m/s) or PASP (mmHg)" ∈ (computeDD2025 x).missing) ↔
          (x.trVmax = none ∧ x.pasp = none)) ∧
        (("DT (ms)" ∈ (computeDD2025 x).missing) ↔ x.dt = none) ∧
        (∀ s ∈ (computeDD2025 x).missing,
          s = "Mitral E (cm/s)" ∨ s = "Septal e′ (cm/s) (for septal E/e′)" ∨
            s = "TR Vmax (m/s) or PASP (mmHg)" ∨ s = "DT (ms)")) := by
  constructor
  · intro hm
    have hd : computeDD2025 x = computeSinus x := by
      unfold computeDD2025
      rw [if_neg (by simp [hm])]
    rw [hd, computeSinus_missing x]
    unfold sinusMissing
    split_ifs <;> simp_all
  · intro hm
    rw [computeDD2025_af x hm, computeAF_missing x]
    unfold afMissing
    split_ifs <;> simp_all

/-- Witness for C9: the all-absent sinus bundle flags mitral E as missing. -/
theorem C9_witness : "Mitral E (cm/s)" ∈ (computeDD2025 emptyBundle).missing :=
  ((C9_missing_list emptyBundle).1 rfl).1.mpr rfl

/-- C10: neither algorithm ever produces the tone "gray": every terminal
outcome uses green, blue, amber, or red. -/
theorem C10_never_gray (x : DDInputs) : (computeDD2025 x).badgeTone ≠ Tone.gray := by
  unfold computeDD2025 computeAF computeSinus sinusConfirm
  repeat' split
  all_goals simp [pack]

end DD2025
